import Mathlib

/-!
Verification development for the EasyWallbox bridge (MQTT ↔ BLE wallbox
controller). Python strings are embedded as `List Char`, Python bytes as
`List Nat`, and each Python function of interest is translated into an
executable Lean definition. Exceptions are embedded with `Except Unit`;
a `try/except` wrapper corresponds to `runCatch`.
-/

/-- Python strings are sequences of code points; we embed them as `List Char`. -/
abbrev Str := List Char

/-- Coerce a Lean string literal to the `List Char` embedding. -/
def str (s : String) : Str := s.data

/-- Source `s.startswith(p)` for the embedded strings. -/
def pyStartsWith (s p : Str) : Bool := p.isPrefixOf s

/-- Source `s.endswith(p)` for the embedded strings. -/
def pyEndsWith (s p : Str) : Bool := p.isSuffixOf s

/-- Fuel-driven worker for `replaceAll`; the fuel is an upper bound on the
length of the scanned string, so the recursion is structural and the kernel
can evaluate it. -/
def replaceAllAux : Nat → Str → Str → Str → Str
  | 0, s, _, _ => s
  | fuel + 1, s, pat, val =>
    match s with
    | [] => []
    | c :: rest =>
      if pat ≠ [] ∧ pat.isPrefixOf (c :: rest) then
        val ++ replaceAllAux fuel ((c :: rest).drop pat.length) pat val
      else
        c :: replaceAllAux fuel rest pat val

/-- Replace every occurrence of the (non-empty) pattern `pat` in `s` by `val`;
this is the semantics of `str.replace` and of `str.format` with a single
named field once the pattern is instantiated to that field. -/
def replaceAll (s pat val : Str) : Str :=
  replaceAllAux s.length s pat val

/-- Source `template.format(key=val)`: replace the occurrences of `{key}`. -/
def pyFormat (tpl key val : Str) : Str :=
  replaceAll tpl ('{' :: key ++ ['}']) val

/-- Whitespace characters stripped by Python `str.strip()`. -/
def pySpace (c : Char) : Bool :=
  c = ' ' ∨ c = '\t' ∨ c = '\n' ∨ c = '\r' ∨ c = '\x0b' ∨ c = '\x0c'

/-- Python `str.strip()`: drop whitespace from both ends. -/
def pyStrip (s : Str) : Str :=
  ((s.dropWhile pySpace).reverse.dropWhile pySpace).reverse

/-- Python `str.lstrip('/')`. -/
def pyLstripSlash (s : Str) : Str := s.dropWhile (· = '/')

/-- Split at the first occurrence of `c`: the semantics of
`s.split(c, 1)` when `c` occurs in `s` (before, after). -/
def splitFirst (c : Char) (s : Str) : Str × Str :=
  match s with
  | [] => ([], [])
  | x :: rest =>
    if x = c then ([], rest)
    else
      let p := splitFirst c rest
      (x :: p.1, p.2)

/-- Numeric value of a digit string. -/
def digitsVal (s : Str) : Nat :=
  s.foldl (fun a c => a * 10 + (c.toNat - 48)) 0

/-- Decimal digits only, non-empty: the shape accepted by Python `int(str)`
after sign and whitespace handling.  (Underscore separators and non-ASCII
digits are never produced by this system and are not modelled.) -/
def pyNatStr (s : Str) : Option Nat :=
  if s ≠ [] ∧ s.all (fun c => '0' ≤ c ∧ c ≤ '9') then some (digitsVal s) else none

/-- Model of Python `int(s)` on a string: strip whitespace, optional sign,
then a non-empty run of decimal digits; anything else raises `ValueError`,
embedded as `none`. -/
def pyInt (s : Str) : Option Int :=
  match pyStrip s with
  | '+' :: rest => (pyNatStr rest).map Int.ofNat
  | '-' :: rest => (pyNatStr rest).map (fun n => -(Int.ofNat n))
  | rest => (pyNatStr rest).map Int.ofNat

/-- Model of Python `int(float(s))` for plain decimal notation
`[sign] digits [. digits]` (truncation toward zero); exponent and special
floats are never produced by this system and are not modelled.  Failure of
either conversion is embedded as `none`. -/
def pyIntFloat (s : Str) : Option Int :=
  let core : Str → Option Nat := fun t =>
    let intPart := t.takeWhile (fun c => '0' ≤ c ∧ c ≤ '9')
    let rest := t.dropWhile (fun c => '0' ≤ c ∧ c ≤ '9')
    match rest with
    | [] => if intPart = [] then none else some (digitsVal intPart)
    | '.' :: frac =>
      if frac.all (fun c => '0' ≤ c ∧ c ≤ '9') ∧ (intPart ≠ [] ∨ frac ≠ []) then
        some (digitsVal intPart)
      else none
    | _ => none
  match pyStrip s with
  | '+' :: rest => (core rest).map Int.ofNat
  | '-' :: rest => (core rest).map (fun n => -(Int.ofNat n))
  | rest => (core rest).map Int.ofNat

/-- Decimal digits of a natural number, via explicit fuel so that the kernel
evaluates it. -/
def natToStrAux : Nat → Nat → Str
  | 0, _ => []
  | fuel + 1, n =>
    if n < 10 then [Char.ofNat (48 + n)]
    else natToStrAux fuel (n / 10) ++ [Char.ofNat (48 + n % 10)]

/-- Python `str(n)` for a natural number. -/
def natToStr (n : Nat) : Str := natToStrAux (n + 1) n

/-- Python `str(i)` for an integer. -/
def intToStr (i : Int) : Str :=
  match i with
  | Int.ofNat n => natToStr n
  | Int.negSucc n => '-' :: natToStr (n + 1)

/-- Run a Python `try/except` that returns `None` on any caught exception. -/
def runCatch (e : Except Unit (Option Str)) : Option Str :=
  match e with
  | .ok r => r
  | .error _ => none

-- ## Protocol constants (const.py)

/-- Source `WALLBOX_BLE["LOGIN"]`. -/
def LOGIN_T : Str := str "$BLE,AUTH,{pin}\n"

/-- Source `WALLBOX_COMMANDS["START_CHARGE"]`. -/
def START_CHARGE_T : Str := str "$CMD,CHARGE,START,{delay}\n"

/-- Source `WALLBOX_COMMANDS["STOP_CHARGE"]`. -/
def STOP_CHARGE_T : Str := str "$CMD,CHARGE,STOP,{delay}\n"

/-- Source `WALLBOX_EPROM["READ_MANUFACTURING"]`. -/
def READ_MANUFACTURING : Str := str "$EEP,READ,MF\n"

/-- Source `WALLBOX_EPROM["READ_SETTINGS"]`. -/
def READ_SETTINGS : Str := str "$EEP,READ,ST\n"

/-- Source `WALLBOX_EPROM["READ_APP_DATA"]`. -/
def READ_APP_DATA : Str := str "$DATA,READ,AD\n"

/-- Source `WALLBOX_EPROM["READ_HW_SETTINGS"]`. -/
def READ_HW_SETTINGS : Str := str "$DATA,READ,HS\n"

/-- Source `WALLBOX_EPROM["READ_SUPPLY_VOLTAGE"]`. -/
def READ_SUPPLY_VOLTAGE : Str := str "$DATA,READ,SV\n"

/-- Source `WALLBOX_EPROM["SET_USER_LIMIT"]`. -/
def SET_USER_LIMIT_T : Str := str "$EEP,WRITE,IDX,174,{limit}\n"

/-- Source `WALLBOX_EPROM["SET_DPM_LIMIT"]`. -/
def SET_DPM_LIMIT_T : Str := str "$EEP,WRITE,IDX,158,{limit}\n"

/-- Source `WALLBOX_EPROM["SET_SAFE_LIMIT"]`. -/
def SET_SAFE_LIMIT_T : Str := str "$EEP,WRITE,IDX,156,{limit}\n"

/-- Source `WALLBOX_EPROM["SET_DPM_OFF"]`. -/
def SET_DPM_OFF : Str := str "$EEP,WRITE,IDX,178,0\n"

/-- Source `WALLBOX_EPROM["SET_DPM_ON"]`. -/
def SET_DPM_ON : Str := str "$EEP,WRITE,IDX,178,1\n"

/-- Source `WALLBOX_EPROM["GET_USER_LIMIT"]`. -/
def GET_USER_LIMIT : Str := str "$EEP,READ,IDX,174\n"

/-- Source `WALLBOX_EPROM["GET_DPM_LIMIT"]`. -/
def GET_DPM_LIMIT : Str := str "$EEP,READ,IDX,158\n"

/-- Source `WALLBOX_EPROM["GET_SAFE_LIMIT"]`. -/
def GET_SAFE_LIMIT : Str := str "$EEP,READ,IDX,156\n"

/-- Source `WALLBOX_EPROM["GET_DPM_STATUS"]`. -/
def GET_DPM_STATUS : Str := str "$EEP,READ,IDX,178\n"

-- ## MQTTBLEMapper (mqtt_ble_mapper.py)

/-- Source `MQTTBLEMapper._map_ha_command(command, payload)` with exceptions made
explicit: the `int(float(payload))` conversion in the `*_limit` branch raises
on a non-numeric payload (embedded as `.error ()`).  Note that the conversion
runs before the `limit_type` dispatch, exactly as in the source. -/
def mapHaCommandE (command payload : Str) : Except Unit (Option Str) :=
  if command = str "dpm" then
    if payload = str "ON" then .ok (some SET_DPM_ON)
    else if payload = str "OFF" then .ok (some SET_DPM_OFF)
    else .ok none
  else if pyEndsWith command (str "_limit") then
    let limit_type := replaceAll command (str "_limit") []
    match pyIntFloat payload with
    | none => .error ()
    | some v =>
      if limit_type = str "user" then
        .ok (some (pyFormat SET_USER_LIMIT_T (str "limit") (intToStr v)))
      else if limit_type = str "safe" then
        .ok (some (pyFormat SET_SAFE_LIMIT_T (str "limit") (intToStr v)))
      else if limit_type = str "dpm" then
        .ok (some (pyFormat SET_DPM_LIMIT_T (str "limit") (intToStr v)))
      else .ok none
  else if command = str "refresh" then
    .ok (some READ_SETTINGS)
  else if command = str "start_charge" then
    .ok (some (pyFormat START_CHARGE_T (str "delay") (natToStr 0)))
  else if command = str "stop_charge" then
    .ok (some (pyFormat STOP_CHARGE_T (str "delay") (natToStr 0)))
  else .ok none

/-- The `/dpm` route of `MQTTBLEMapper._map_legacy_command`: in the slash
branch the `int(val)` conversion only runs when `cmd == "limit"`. -/
def legacyDpmBranch (payload : Str) : Except Unit (Option Str) :=
  if payload = str "on" then .ok (some SET_DPM_ON)
  else if payload = str "off" then .ok (some SET_DPM_OFF)
  else if payload = str "limit" then .ok (some GET_DPM_LIMIT)
  else if payload = str "status" then .ok (some GET_DPM_STATUS)
  else if payload.contains '/' then
    let p := splitFirst '/' payload
    if p.1 = str "limit" then
      match pyInt p.2 with
      | none => .error ()
      | some n => .ok (some (pyFormat SET_DPM_LIMIT_T (str "limit") (intToStr n)))
    else .ok none
  else .ok none

/-- The `/charge` route of `MQTTBLEMapper._map_legacy_command`: the slash
value is substituted into the delay field as-is. -/
def legacyChargeBranch (payload : Str) : Except Unit (Option Str) :=
  if payload = str "start" then
    .ok (some (pyFormat START_CHARGE_T (str "delay") (natToStr 0)))
  else if payload = str "stop" then
    .ok (some (pyFormat STOP_CHARGE_T (str "delay") (natToStr 0)))
  else if payload.contains '/' then
    let p := splitFirst '/' payload
    if p.1 = str "start" then
      .ok (some (pyFormat START_CHARGE_T (str "delay") p.2))
    else if p.1 = str "stop" then
      .ok (some (pyFormat STOP_CHARGE_T (str "delay") p.2))
    else .ok none
  else .ok none

/-- The `/limit` route of `MQTTBLEMapper._map_legacy_command`: the source
computes `value = str(int(val))` before dispatching on `cmd`, so a
non-numeric value raises there even if `cmd` matches nothing. -/
def legacyLimitBranch (payload : Str) : Except Unit (Option Str) :=
  if payload = str "dpm" then .ok (some GET_DPM_LIMIT)
  else if payload = str "safe" then .ok (some GET_SAFE_LIMIT)
  else if payload = str "user" then .ok (some GET_USER_LIMIT)
  else if payload.contains '/' then
    let p := splitFirst '/' payload
    match pyInt p.2 with
    | none => .error ()
    | some n =>
      let value := intToStr n
      if p.1 = str "dpm" then
        .ok (some (pyFormat SET_DPM_LIMIT_T (str "limit") value))
      else if p.1 = str "safe" then
        .ok (some (pyFormat SET_SAFE_LIMIT_T (str "limit") value))
      else if p.1 = str "user" then
        .ok (some (pyFormat SET_USER_LIMIT_T (str "limit") value))
      else .ok none
  else .ok none

/-- The `/read` route of `MQTTBLEMapper._map_legacy_command`. -/
def legacyReadBranch (payload : Str) : Except Unit (Option Str) :=
  if payload = str "manufacturing" then .ok (some READ_MANUFACTURING)
  else if payload = str "settings" then .ok (some READ_SETTINGS)
  else if payload = str "app_data" then .ok (some READ_APP_DATA)
  else if payload = str "hw_settings" then .ok (some READ_HW_SETTINGS)
  else if payload = str "voltage" then .ok (some READ_SUPPLY_VOLTAGE)
  else .ok none

/-- Source `MQTTBLEMapper._map_legacy_command(subtopic, payload)` with exceptions
made explicit: the if/elif dispatch on the subtopic, with each route's body
factored into the branch definitions above. -/
def mapLegacyCommandE (subtopic payload : Str) : Except Unit (Option Str) :=
  if subtopic = str "dpm" then legacyDpmBranch payload
  else if subtopic = str "charge" then legacyChargeBranch payload
  else if subtopic = str "limit" then legacyLimitBranch payload
  else if subtopic = str "read" then legacyReadBranch payload
  else .ok none

/-- Source `MQTTBLEMapper.map_command(subtopic, payload)`: dispatch to the HA route
for `set/` suffixes, otherwise the legacy route; the surrounding
`try/except` turns any raised exception into `None`. -/
def map_command (subtopic payload : Str) : Option Str :=
  runCatch
    (if pyStartsWith subtopic (str "set/") then
      mapHaCommandE (subtopic.drop 4) payload
    else
      mapLegacyCommandE subtopic payload)

/-- Source `MQTTBLEMapper.get_refresh_commands()`. -/
def get_refresh_commands : List Str := [READ_SETTINGS, READ_APP_DATA]

-- ## Coordinator (coordinator.py)

/-- The `/dpm` route of `Coordinator._map_mqtt_to_ble`: unlike the legacy
mapper, the slash branch substitutes `str(int(val)*10)` into the DPM-limit
template. -/
def coordDpmBranch (payload : Str) : Except Unit (Option Str) :=
  if payload = str "on" then .ok (some SET_DPM_ON)
  else if payload = str "off" then .ok (some SET_DPM_OFF)
  else if payload = str "limit" then .ok (some GET_DPM_LIMIT)
  else if payload = str "status" then .ok (some GET_DPM_STATUS)
  else if payload.contains '/' then
    let p := splitFirst '/' payload
    if p.1 = str "limit" then
      match pyInt p.2 with
      | none => .error ()
      | some n => .ok (some (pyFormat SET_DPM_LIMIT_T (str "limit") (intToStr (n * 10))))
    else .ok none
  else .ok none

/-- The `/charge` route of `Coordinator._map_mqtt_to_ble`. -/
def coordChargeBranch (payload : Str) : Except Unit (Option Str) :=
  if payload = str "start" then
    .ok (some (pyFormat START_CHARGE_T (str "delay") (natToStr 0)))
  else if payload = str "stop" then
    .ok (some (pyFormat STOP_CHARGE_T (str "delay") (natToStr 0)))
  else if payload.contains '/' then
    let p := splitFirst '/' payload
    if p.1 = str "start" then
      .ok (some (pyFormat START_CHARGE_T (str "delay") p.2))
    else if p.1 = str "stop" then
      .ok (some (pyFormat STOP_CHARGE_T (str "delay") p.2))
    else .ok none
  else .ok none

/-- The `/limit` route of `Coordinator._map_mqtt_to_ble`: `str(int(val))` is
evaluated inside each matching `cmd` branch rather than up front. -/
def coordLimitBranch (payload : Str) : Except Unit (Option Str) :=
  if payload = str "dpm" then .ok (some GET_DPM_LIMIT)
  else if payload = str "safe" then .ok (some GET_SAFE_LIMIT)
  else if payload = str "user" then .ok (some GET_USER_LIMIT)
  else if payload.contains '/' then
    let p := splitFirst '/' payload
    if p.1 = str "dpm" then
      match pyInt p.2 with
      | none => .error ()
      | some n => .ok (some (pyFormat SET_DPM_LIMIT_T (str "limit") (intToStr n)))
    else if p.1 = str "safe" then
      match pyInt p.2 with
      | none => .error ()
      | some n => .ok (some (pyFormat SET_SAFE_LIMIT_T (str "limit") (intToStr n)))
    else if p.1 = str "user" then
      match pyInt p.2 with
      | none => .error ()
      | some n => .ok (some (pyFormat SET_USER_LIMIT_T (str "limit") (intToStr n)))
    else .ok none
  else .ok none

/-- The `/read` route of `Coordinator._map_mqtt_to_ble`. -/
def coordReadBranch (payload : Str) : Except Unit (Option Str) :=
  if payload = str "manufacturing" then .ok (some READ_MANUFACTURING)
  else if payload = str "settings" then .ok (some READ_SETTINGS)
  else if payload = str "app_data" then .ok (some READ_APP_DATA)
  else if payload = str "hw_settings" then .ok (some READ_HW_SETTINGS)
  else if payload = str "voltage" then .ok (some READ_SUPPLY_VOLTAGE)
  else .ok none

/-- Source `Coordinator._map_mqtt_to_ble(subtopic, payload)` before its enclosing
`try/except`, with exceptions made explicit: the if/elif dispatch on the
subtopic, with each route's body factored into the branch definitions
above. -/
def coordMapE (subtopic payload : Str) : Except Unit (Option Str) :=
  if subtopic = str "dpm" then coordDpmBranch payload
  else if subtopic = str "charge" then coordChargeBranch payload
  else if subtopic = str "limit" then coordLimitBranch payload
  else if subtopic = str "read" then coordReadBranch payload
  else .ok none

/-- Source `Coordinator._map_mqtt_to_ble` with its enclosing `try/except` that logs
and returns `None` on any exception. -/
def coord_map_mqtt_to_ble (subtopic payload : Str) : Option Str :=
  runCatch (coordMapE subtopic payload)

/-- Source `Coordinator._on_mqtt_message(topic, payload)`, as the list of BLE
commands written during the call.  `mqttTopic` stands for the configured base
topic the source reads from the config object; if the full topic does not
start with it nothing happens, otherwise the suffix is taken, leading `/`
stripped, mapped, and the single resulting command (if any) is written. -/
def on_mqtt_message (mqttTopic topic payload : Str) : List Str :=
  if ¬ pyStartsWith topic mqttTopic then []
  else
    let subtopic := pyLstripSlash (topic.drop mqttTopic.length)
    match coord_map_mqtt_to_ble subtopic payload with
    | some command => [command]
    | none => []

/-- Source `Coordinator.set_limit(limit_type, value)`, as the list of BLE commands
written; the `int(float(value))` conversion may raise (the web-server caller
catches it), embedded as `.error ()`. -/
def set_limit (limit_type value : Str) : Except Unit (List Str) :=
  match pyIntFloat value with
  | none => .error ()
  | some val =>
    let cmd : Option Str :=
      if limit_type = str "dpm" then
        some (pyFormat SET_DPM_LIMIT_T (str "limit") (intToStr val))
      else if limit_type = str "safe" then
        some (pyFormat SET_SAFE_LIMIT_T (str "limit") (intToStr val))
      else if limit_type = str "user" then
        some (pyFormat SET_USER_LIMIT_T (str "limit") (intToStr val))
      else none
    .ok (match cmd with | some c => [c] | none => [])

/-- Source `Coordinator.refresh_data()`, as the list of BLE commands written. -/
def refresh_data : List Str := [READ_SETTINGS, READ_APP_DATA]

/-- Effect of `Coordinator._on_ble_notify(data)`: the stored `_last_data` and
the one MQTT publication (`MQTTManager.publish` prefixes the configured base
`easywallbox/` to the subtopic `message`). -/
structure NotifyEffect where
  last_data : Str
  publish_topic : Str
  publish_payload : Str
  deriving DecidableEq, Repr

/-- Source `Coordinator._on_ble_notify(data)`: store the stripped line and forward
the raw line to the `message` subtopic. -/
def on_ble_notify (data : Str) : NotifyEffect :=
  { last_data := pyStrip data
    publish_topic := str "easywallbox/message"
    publish_payload := data }

-- ## Notification framer (ble_manager.py)

/-- A UTF-8 continuation byte. -/
def contByte (b : Nat) : Bool := 0x80 ≤ b ∧ b ≤ 0xBF

/-- Fuel-driven worker for `utf8Decode` (structural on the fuel so the kernel
evaluates it). -/
def utf8DecodeAux : Nat → List Nat → Option (List Char)
  | 0, bs => if bs = [] then some [] else none
  | fuel + 1, bs =>
    match bs with
    | [] => some []
    | b :: rest =>
      if b < 0x80 then
        (utf8DecodeAux fuel rest).map (fun cs => Char.ofNat b :: cs)
      else if 0xC2 ≤ b ∧ b ≤ 0xDF then
        match rest with
        | c1 :: rest2 =>
          if contByte c1 then
            (utf8DecodeAux fuel rest2).map
              (fun cs => Char.ofNat ((b - 0xC0) * 64 + (c1 - 0x80)) :: cs)
          else none
        | [] => none
      else if 0xE0 ≤ b ∧ b ≤ 0xEF then
        match rest with
        | c1 :: c2 :: rest2 =>
          if (if b = 0xE0 then 0xA0 ≤ c1 ∧ c1 ≤ 0xBF
              else if b = 0xED then 0x80 ≤ c1 ∧ c1 ≤ 0x9F
              else contByte c1) ∧ contByte c2 then
            (utf8DecodeAux fuel rest2).map
              (fun cs =>
                Char.ofNat ((b - 0xE0) * 4096 + (c1 - 0x80) * 64 + (c2 - 0x80)) :: cs)
          else none
        | _ => none
      else if 0xF0 ≤ b ∧ b ≤ 0xF4 then
        match rest with
        | c1 :: c2 :: c3 :: rest2 =>
          if (if b = 0xF0 then 0x90 ≤ c1 ∧ c1 ≤ 0xBF
              else if b = 0xF4 then 0x80 ≤ c1 ∧ c1 ≤ 0x8F
              else contByte c1) ∧ contByte c2 ∧ contByte c3 then
            (utf8DecodeAux fuel rest2).map
              (fun cs =>
                Char.ofNat
                  ((b - 0xF0) * 262144 + (c1 - 0x80) * 4096 + (c2 - 0x80) * 64 +
                    (c3 - 0x80)) :: cs)
          else none
        | _ => none
      else none

/-- Model of Python `bytes.decode('utf-8')` in strict mode: standard UTF-8
validation (continuation-byte ranges exclude overlong encodings, surrogates
and code points above `0x10FFFF`), `none` embedding `UnicodeDecodeError`;
a truncated trailing sequence also fails. -/
def utf8Decode (bs : List Nat) : Option (List Char) := utf8DecodeAux bs.length bs

/-- ASCII bytes of a string, for building concrete notification fragments. -/
def asciiBytes (s : String) : List Nat := s.data.map Char.toNat

/-- Source `BLEManager._notification_handler_rx(sender, data)` acting on the channel
buffer: returns the new buffer and the list of payloads handed to the notify
callback.  A decode failure resets the buffer and emits nothing (the
`UnicodeDecodeError` is caught inside the handler, so the function is total);
when the grown buffer contains a terminator the whole buffer is passed to the
callback unmodified and the buffer resets. -/
def notification_handler_rx (buf : Str) (data : List Nat) : Str × List Str :=
  match utf8Decode data with
  | none => ([], [])
  | some s =>
    let b := buf ++ s
    if b.contains '\n' then ([], [b]) else (b, [])

/-- Source `BLEManager._notification_handler_st(sender, data)` acting on the status
channel buffer (the status channel only logs, so only the new buffer is
returned): decode failure or a present terminator resets the buffer. -/
def notification_handler_st (buf : Str) (data : List Nat) : Str :=
  match utf8Decode data with
  | none => []
  | some s =>
    let b := buf ++ s
    if b.contains '\n' then [] else b

/-- Feed a sequence of byte fragments to the data-channel handler, collecting
all emitted callback payloads. -/
def feedAllRx (buf : Str) : List (List Nat) → Str × List Str
  | [] => (buf, [])
  | d :: ds =>
    let r1 := notification_handler_rx buf d
    let r2 := feedAllRx r1.1 ds
    (r2.1, r1.2 ++ r2.2)

-- ## BLE connection lifecycle (BLEManager.start, ble_manager.py)

/-- Observable events of `BLEManager.start`. -/
inductive BLEEvent where
  | connectAttempt
  | notifyStartTx
  | notifyStartSt
  | writeCmd (cmd : Str)
  | sleepSec (n : Nat)
  | connChange (connected : Bool)
  deriving DecidableEq, Repr

/-- Event trace of one iteration of the `while self._running` loop in which
`self._client.connect()` raises: the `finally` block signals the
connection-change callback with `False` (the client is not connected, so no
disconnect call) and sleeps the fixed 5-second backoff. -/
def bleFailedIter : List BLEEvent :=
  [.connectAttempt, .connChange false, .sleepSec 5]

/-- Event trace of a successful iteration of `BLEManager.start` up to the
point where the connection-change callback is signalled with `True`: connect,
register both notification channels, write the formatted login command, wait
the 2-second settle interval, then signal connected. -/
def bleSuccessEvents (pin : Str) : List BLEEvent :=
  [.connectAttempt, .notifyStartTx, .notifyStartSt,
   .writeCmd (pyFormat LOGIN_T (str "pin") pin), .sleepSec 2, .connChange true]

/-- Event trace of `BLEManager.start` across `failures` consecutive failed
connect attempts followed by one successful attempt, up to the connected
signal. -/
def bleStartTrace (pin : Str) (failures : Nat) : List BLEEvent :=
  (List.replicate failures bleFailedIter).flatten ++ bleSuccessEvents pin

-- ## Command dispatch loop (ble_task_loop, main.py / easywallbox.py)

/-- The state of the dispatch loop that `ble_task_loop` reads and writes:
`eb.connected` and the forced-reconnect event flag. -/
structure LoopState where
  connected : Bool
  reconnectEventSet : Bool
  deriving DecidableEq, Repr

/-- Outcome of `asyncio.wait_for(queue.get(), timeout=1.0)`: either a timeout
or a dequeued command string. -/
inductive QueueTake where
  | timeout
  | item (cmd : Str)
  deriving DecidableEq, Repr

/-- Observable events of one `ble_task_loop` iteration. -/
inductive LoopEvent where
  | connect (ok : Bool)
  | setupNotifications
  | authenticate
  | sleepSec (n : Nat)
  | writeCmd (cmd : Str)
  | disconnect
  deriving DecidableEq, Repr

/-- The command-processing phase of `ble_task_loop`: a set reconnect event
raises, caught by the outer handler (disconnect, 5-second cool-down); a
dequeued `"__RECONNECT__"` sentinel clears the event, disconnects and sleeps
2 seconds without reaching `eb.write`; a normal command is written
(`EasyWallbox.write` is a no-op when not connected); a timeout does
nothing.  `EasyWallbox.disconnect` only acts when connected. -/
def dispatchPhase (st : LoopState) (q : QueueTake) : LoopState × List LoopEvent :=
  if st.reconnectEventSet then
    (⟨false, st.reconnectEventSet⟩,
      (if st.connected then [LoopEvent.disconnect] else []) ++ [.sleepSec 5])
  else
    match q with
    | .timeout => (st, [])
    | .item cmd =>
      if cmd = str "__RECONNECT__" then
        (⟨false, false⟩,
          (if st.connected then [LoopEvent.disconnect] else []) ++ [.sleepSec 2])
      else
        (st, if st.connected then [.writeCmd cmd] else [])

/-- One iteration of `ble_task_loop`: when disconnected, attempt to connect
(on success set up notifications, stabilize 1 s, authenticate, and fall into
the command phase; on failure sleep 10 s and loop); when connected go
straight to the command phase. -/
def ble_task_iter (st : LoopState) (connectOk : Bool) (q : QueueTake) :
    LoopState × List LoopEvent :=
  if st.connected then dispatchPhase st q
  else if connectOk then
    let r := dispatchPhase ⟨true, st.reconnectEventSet⟩ q
    (r.1, [LoopEvent.connect true, .setupNotifications, .sleepSec 1, .authenticate] ++ r.2)
  else (st, [LoopEvent.connect false, .sleepSec 10])

-- ## Route table (spec TopicRoute, used by the C4 characterization)

/-- The payload patterns the HA (`set/`) part of the route table accepts,
written from the spec's TopicRoute table: keyword rows for the dpm switch,
numeric-validated parameterized rows for the three limit entities, and the
literal refresh / charge rows (whose payload is ignored). -/
abbrev haRouteTable (c p : Str) : Prop :=
  (c = str "dpm" ∧ (p = str "ON" ∨ p = str "OFF")) ∨
  (pyEndsWith c (str "_limit") = true ∧
    (replaceAll c (str "_limit") [] = str "user" ∨
     replaceAll c (str "_limit") [] = str "safe" ∨
     replaceAll c (str "_limit") [] = str "dpm") ∧
    pyIntFloat p ≠ none) ∨
  c = str "refresh" ∨ c = str "start_charge" ∨ c = str "stop_charge"

/-- The route table as a predicate on (topic suffix, payload) pairs: the
legacy keyword rows, the legacy slash-delimited parameterized rows (numeric
where the template substitutes a converted number; the charge delay is taken
as-is), the legacy read rows, and the `set/` rows of `haRouteTable`. -/
abbrev routeTable (s p : Str) : Prop :=
  (s = str "dpm" ∧
    (p = str "on" ∨ p = str "off" ∨ p = str "limit" ∨ p = str "status" ∨
     ('/' ∈ p ∧ (splitFirst '/' p).1 = str "limit" ∧
       pyInt (splitFirst '/' p).2 ≠ none))) ∨
  (s = str "charge" ∧
    (p = str "start" ∨ p = str "stop" ∨
     ('/' ∈ p ∧ ((splitFirst '/' p).1 = str "start" ∨
                 (splitFirst '/' p).1 = str "stop")))) ∨
  (s = str "limit" ∧
    (p = str "dpm" ∨ p = str "safe" ∨ p = str "user" ∨
     ('/' ∈ p ∧
       ((splitFirst '/' p).1 = str "dpm" ∨ (splitFirst '/' p).1 = str "safe" ∨
        (splitFirst '/' p).1 = str "user") ∧
       pyInt (splitFirst '/' p).2 ≠ none))) ∨
  (s = str "read" ∧
    (p = str "manufacturing" ∨ p = str "settings" ∨ p = str "app_data" ∨
     p = str "hw_settings" ∨ p = str "voltage")) ∨
  (pyStartsWith s (str "set/") = true ∧ haRouteTable (s.drop 4) p)

instance (c p : Str) : Decidable (haRouteTable c p) := by
  unfold haRouteTable
  infer_instance

instance (s p : Str) : Decidable (routeTable s p) := by
  unfold routeTable
  infer_instance

-- ## Reduction lemmas for the mapping routes

/-- The `limit` route of the coordinator mapper on a `user/<v>` payload
reduces to the `int(v)` conversion guarded by the `try/except`. -/
lemma coord_limit_user_red (v : Str) :
    coord_map_mqtt_to_ble (str "limit") (str "user/" ++ v)
      = runCatch (match pyInt v with
          | none => Except.error ()
          | some n => Except.ok (some (pyFormat SET_USER_LIMIT_T (str "limit") (intToStr n)))) := rfl

/-- The `limit` route of `map_command` on a `user/<v>` payload reduces to the
`int(v)` conversion guarded by the `try/except`. -/
lemma map_limit_user_red (v : Str) :
    map_command (str "limit") (str "user/" ++ v)
      = runCatch (match pyInt v with
          | none => Except.error ()
          | some n => Except.ok (some (pyFormat SET_USER_LIMIT_T (str "limit") (intToStr n)))) := rfl

/-- The `limit` route of `map_command` on a `safe/<v>` payload. -/
lemma map_limit_safe_red (v : Str) :
    map_command (str "limit") (str "safe/" ++ v)
      = runCatch (match pyInt v with
          | none => Except.error ()
          | some n => Except.ok (some (pyFormat SET_SAFE_LIMIT_T (str "limit") (intToStr n)))) := rfl

/-- The `limit` route of `map_command` on a `dpm/<v>` payload. -/
lemma map_limit_dpm_red (v : Str) :
    map_command (str "limit") (str "dpm/" ++ v)
      = runCatch (match pyInt v with
          | none => Except.error ()
          | some n => Except.ok (some (pyFormat SET_DPM_LIMIT_T (str "limit") (intToStr n)))) := rfl

/-- The `dpm` route of `map_command` on a `limit/<v>` payload. -/
lemma map_dpm_limit_red (v : Str) :
    map_command (str "dpm") (str "limit/" ++ v)
      = runCatch (match pyInt v with
          | none => Except.error ()
          | some n => Except.ok (some (pyFormat SET_DPM_LIMIT_T (str "limit") (intToStr n)))) := rfl

/-- The `dpm` route of the coordinator mapper on a `limit/<v>` payload: the
substituted value is `int(v) * 10`. -/
lemma coord_dpm_limit_red (v : Str) :
    coord_map_mqtt_to_ble (str "dpm") (str "limit/" ++ v)
      = runCatch (match pyInt v with
          | none => Except.error ()
          | some n => Except.ok (some (pyFormat SET_DPM_LIMIT_T (str "limit") (intToStr (n * 10))))) := rfl

/-- Source `Coordinator._on_mqtt_message` on the limit topic with a `user/<v>`
payload reduces to the `int(v)` conversion. -/
lemma on_mqtt_limit_user_red (v : Str) :
    on_mqtt_message (str "easywallbox") (str "easywallbox/limit") (str "user/" ++ v)
      = (match pyInt v with
         | none => []
         | some n => [pyFormat SET_USER_LIMIT_T (str "limit") (intToStr n)]) := by
  have h : on_mqtt_message (str "easywallbox") (str "easywallbox/limit") (str "user/" ++ v)
      = (match runCatch (match pyInt v with
            | none => Except.error ()
            | some n => Except.ok (some (pyFormat SET_USER_LIMIT_T (str "limit") (intToStr n)))) with
         | some c => [c]
         | none => []) := rfl
  rw [h]
  cases pyInt v <;> rfl

/-- Writing the user-limit template leaves the fixed WRITE prefix in place. -/
lemma fmt_user_limit (x : Str) :
    pyFormat SET_USER_LIMIT_T (str "limit") x
      = str "$EEP,WRITE,IDX,174," ++ x ++ str "\n" := rfl

/-- The user-limit READ command never coincides with a formatted user-limit
WRITE command (they differ at the fifth character). -/
lemma get_user_ne_fmt (x : Str) :
    GET_USER_LIMIT ≠ pyFormat SET_USER_LIMIT_T (str "limit") x := by
  intro h
  rw [fmt_user_limit] at h
  have h6 := congrArg (List.take 6) h
  rw [show List.take 6 GET_USER_LIMIT = str "$EEP,R" from rfl] at h6
  rw [show List.take 6 (str "$EEP,WRITE,IDX,174," ++ x ++ str "\n") = str "$EEP,W" from rfl] at h6
  exact absurd h6 (by decide)

/-- The HA route produces a command exactly on the pairs of the HA part of
the route table. -/
lemma ha_route_iff (c p : Str) :
    (runCatch (mapHaCommandE c p)).isSome = true ↔ haRouteTable c p := by
  unfold mapHaCommandE haRouteTable
  by_cases h1 : c = str "dpm"
  · subst h1
    by_cases hON : p = str "ON"
    · simp [hON, runCatch]
      try rfl
    by_cases hOFF : p = str "OFF"
    · simp [hON, hOFF, runCatch]
      try rfl
    · simp [hON, hOFF, runCatch,
        show pyEndsWith (str "dpm") (str "_limit") = false from by decide,
        show (str "dpm" : Str) ≠ str "refresh" from by decide,
        show (str "dpm" : Str) ≠ str "start_charge" from by decide,
        show (str "dpm" : Str) ≠ str "stop_charge" from by decide]
  by_cases h2 : pyEndsWith c (str "_limit") = true
  · have hr : c ≠ str "refresh" := by
      intro h
      rw [h] at h2
      exact absurd h2 (by decide)
    have hsc : c ≠ str "start_charge" := by
      intro h
      rw [h] at h2
      exact absurd h2 (by decide)
    have hstc : c ≠ str "stop_charge" := by
      intro h
      rw [h] at h2
      exact absurd h2 (by decide)
    cases hpf : pyIntFloat p with
    | none => simp [h1, h2, hr, hsc, hstc, hpf, runCatch]
    | some v =>
      by_cases l1 : replaceAll c (str "_limit") [] = str "user"
      · simp [h1, h2, l1, hpf, hr, hsc, hstc, runCatch]
        try rfl
      by_cases l2 : replaceAll c (str "_limit") [] = str "safe"
      · simp [h1, h2, l1, l2, hpf, hr, hsc, hstc, runCatch]
        try rfl
      by_cases l3 : replaceAll c (str "_limit") [] = str "dpm"
      · simp [h1, h2, l1, l2, l3, hpf, hr, hsc, hstc, runCatch]
        try rfl
      · simp [h1, h2, l1, l2, l3, hpf, hr, hsc, hstc, runCatch]
  by_cases h3 : c = str "refresh"
  · simp [h1, h2, h3, runCatch]
    try rfl
  by_cases h4 : c = str "start_charge"
  · simp [h1, h2, h3, h4, runCatch]
    try rfl
  by_cases h5 : c = str "stop_charge"
  · simp [h1, h2, h3, h4, h5, runCatch]
    try rfl
  · simp [h1, h2, h3, h4, h5, runCatch]

/-- The legacy `dpm` route produces a command exactly on its table rows. -/
lemma dpm_route_iff (p : Str) :
    (map_command (str "dpm") p).isSome = true ↔
      (p = str "on" ∨ p = str "off" ∨ p = str "limit" ∨ p = str "status" ∨
       ('/' ∈ p ∧ (splitFirst '/' p).1 = str "limit" ∧
         pyInt (splitFirst '/' p).2 ≠ none)) := by
  show (runCatch (legacyDpmBranch p)).isSome = true ↔ _
  unfold legacyDpmBranch
  by_cases h1 : p = str "on"
  · simp [h1, runCatch]
    try rfl
  by_cases h2 : p = str "off"
  · simp [h1, h2, runCatch]
    try rfl
  by_cases h3 : p = str "limit"
  · simp [h1, h2, h3, runCatch]
    try rfl
  by_cases h4 : p = str "status"
  · simp [h1, h2, h3, h4, runCatch]
    try rfl
  by_cases h5 : '/' ∈ p
  · by_cases q1 : (splitFirst '/' p).1 = str "limit"
    · cases hpy : pyInt (splitFirst '/' p).2 with
      | none => simp [h1, h2, h3, h4, h5, q1, hpy, runCatch]
      | some n =>
        simp [h1, h2, h3, h4, h5, q1, hpy, runCatch]
        try rfl
    · simp [h1, h2, h3, h4, h5, q1, runCatch]
  · simp [h1, h2, h3, h4, h5, runCatch]

/-- The legacy `charge` route produces a command exactly on its table rows. -/
lemma charge_route_iff (p : Str) :
    (map_command (str "charge") p).isSome = true ↔
      (p = str "start" ∨ p = str "stop" ∨
       ('/' ∈ p ∧ ((splitFirst '/' p).1 = str "start" ∨
                   (splitFirst '/' p).1 = str "stop"))) := by
  show (runCatch (legacyChargeBranch p)).isSome = true ↔ _
  unfold legacyChargeBranch
  by_cases h1 : p = str "start"
  · simp [h1, runCatch]
    try rfl
  by_cases h2 : p = str "stop"
  · simp [h1, h2, runCatch]
    try rfl
  by_cases h3 : '/' ∈ p
  · by_cases q1 : (splitFirst '/' p).1 = str "start"
    · simp [h1, h2, h3, q1, runCatch]
      try rfl
    by_cases q2 : (splitFirst '/' p).1 = str "stop"
    · simp [h1, h2, h3, q1, q2, runCatch]
      try rfl
    · simp [h1, h2, h3, q1, q2, runCatch]
  · simp [h1, h2, h3, runCatch]

/-- The legacy `limit` route produces a command exactly on its table rows. -/
lemma limit_route_iff (p : Str) :
    (map_command (str "limit") p).isSome = true ↔
      (p = str "dpm" ∨ p = str "safe" ∨ p = str "user" ∨
       ('/' ∈ p ∧
         ((splitFirst '/' p).1 = str "dpm" ∨ (splitFirst '/' p).1 = str "safe" ∨
          (splitFirst '/' p).1 = str "user") ∧
         pyInt (splitFirst '/' p).2 ≠ none)) := by
  show (runCatch (legacyLimitBranch p)).isSome = true ↔ _
  unfold legacyLimitBranch
  by_cases h1 : p = str "dpm"
  · simp [h1, runCatch]
    try rfl
  by_cases h2 : p = str "safe"
  · simp [h1, h2, runCatch]
    try rfl
  by_cases h3 : p = str "user"
  · simp [h1, h2, h3, runCatch]
    try rfl
  by_cases h4 : '/' ∈ p
  · cases hpy : pyInt (splitFirst '/' p).2 with
    | none => simp [h1, h2, h3, h4, hpy, runCatch]
    | some n =>
      by_cases q1 : (splitFirst '/' p).1 = str "dpm"
      · simp [h1, h2, h3, h4, q1, hpy, runCatch]
        try rfl
      by_cases q2 : (splitFirst '/' p).1 = str "safe"
      · simp [h1, h2, h3, h4, q1, q2, hpy, runCatch]
        try rfl
      by_cases q3 : (splitFirst '/' p).1 = str "user"
      · simp [h1, h2, h3, h4, q1, q2, q3, hpy, runCatch]
        try rfl
      · simp [h1, h2, h3, h4, q1, q2, q3, hpy, runCatch]
  · simp [h1, h2, h3, h4, runCatch]

/-- The legacy `read` route produces a command exactly on its table rows. -/
lemma read_route_iff (p : Str) :
    (map_command (str "read") p).isSome = true ↔
      (p = str "manufacturing" ∨ p = str "settings" ∨ p = str "app_data" ∨
       p = str "hw_settings" ∨ p = str "voltage") := by
  show (runCatch (legacyReadBranch p)).isSome = true ↔ _
  unfold legacyReadBranch
  by_cases h1 : p = str "manufacturing"
  · simp [h1, runCatch]
    try rfl
  by_cases h2 : p = str "settings"
  · simp [h1, h2, runCatch]
    try rfl
  by_cases h3 : p = str "app_data"
  · simp [h1, h2, h3, runCatch]
    try rfl
  by_cases h4 : p = str "hw_settings"
  · simp [h1, h2, h3, h4, runCatch]
    try rfl
  by_cases h5 : p = str "voltage"
  · simp [h1, h2, h3, h4, h5, runCatch]
    try rfl
  · simp [h1, h2, h3, h4, h5, runCatch]

/-- C4: the command mapper is deterministic and total, and returns a command
exactly on the (suffix, payload) pairs of the route table — so for every
pair outside the route table it returns nothing.  Totality (never raising)
holds by construction: `map_command` wraps the routing in `runCatch`, so
every embedded exception (`Except.error`) becomes `none`; determinism is the
reflexivity of the pure function. -/
theorem mapper_total_outside_table (s p : Str) :
    map_command s p = map_command s p ∧
    ((map_command s p).isSome = true ↔ routeTable s p) ∧
    (¬ routeTable s p → map_command s p = none) := by
  have hiff : (map_command s p).isSome = true ↔ routeTable s p := by
    by_cases hset : pyStartsWith s (str "set/") = true
    · have e : map_command s p = runCatch (mapHaCommandE (s.drop 4) p) := by
        unfold map_command
        rw [if_pos hset]
      have hd : s ≠ str "dpm" := by
        intro h
        rw [h] at hset
        exact absurd hset (by decide)
      have hc : s ≠ str "charge" := by
        intro h
        rw [h] at hset
        exact absurd hset (by decide)
      have hl : s ≠ str "limit" := by
        intro h
        rw [h] at hset
        exact absurd hset (by decide)
      have hre : s ≠ str "read" := by
        intro h
        rw [h] at hset
        exact absurd hset (by decide)
      rw [e, ha_route_iff]
      unfold routeTable
      simp [hd, hc, hl, hre, hset]
    by_cases h1 : s = str "dpm"
    · subst h1
      rw [dpm_route_iff]
      unfold routeTable
      simp [show (str "dpm" : Str) ≠ str "charge" from by decide,
        show (str "dpm" : Str) ≠ str "limit" from by decide,
        show (str "dpm" : Str) ≠ str "read" from by decide,
        show pyStartsWith (str "dpm") (str "set/") = false from by decide]
    by_cases h2 : s = str "charge"
    · subst h2
      rw [charge_route_iff]
      unfold routeTable
      simp [show (str "charge" : Str) ≠ str "dpm" from by decide,
        show (str "charge" : Str) ≠ str "limit" from by decide,
        show (str "charge" : Str) ≠ str "read" from by decide,
        show pyStartsWith (str "charge") (str "set/") = false from by decide]
    by_cases h3 : s = str "limit"
    · subst h3
      rw [limit_route_iff]
      unfold routeTable
      simp [show (str "limit" : Str) ≠ str "dpm" from by decide,
        show (str "limit" : Str) ≠ str "charge" from by decide,
        show (str "limit" : Str) ≠ str "read" from by decide,
        show pyStartsWith (str "limit") (str "set/") = false from by decide]
    by_cases h4 : s = str "read"
    · subst h4
      rw [read_route_iff]
      unfold routeTable
      simp [show (str "read" : Str) ≠ str "dpm" from by decide,
        show (str "read" : Str) ≠ str "charge" from by decide,
        show (str "read" : Str) ≠ str "limit" from by decide,
        show pyStartsWith (str "read") (str "set/") = false from by decide]
    · have e : map_command s p = none := by
        unfold map_command mapLegacyCommandE
        rw [if_neg hset]
        simp [h1, h2, h3, h4, runCatch]
      rw [e]
      unfold routeTable
      simp [h1, h2, h3, h4, hset]
  refine ⟨rfl, hiff, fun hout => ?_⟩
  cases hmc : map_command s p with
  | none => rfl
  | some c => exact absurd (hiff.mp (by simp [hmc])) hout

/-- Witness for C4 at out-of-table pairs of every kind: in-table suffixes
with out-of-table payloads (`dpm`, `charge`, `limit`, and an unknown `set/`
entity), and a suffix outside the table altogether. -/
theorem mapper_total_outside_table_witness :
    map_command (str "dpm") (str "bogus") = none ∧
    map_command (str "charge") (str "go/5") = none ∧
    map_command (str "limit") (str "user/abc") = none ∧
    map_command (str "set/unknown") (str "1") = none ∧
    map_command (str "bogus") (str "x") = none :=
  ⟨(mapper_total_outside_table (str "dpm") (str "bogus")).2.2 (by decide),
   (mapper_total_outside_table (str "charge") (str "go/5")).2.2 (by decide),
   (mapper_total_outside_table (str "limit") (str "user/abc")).2.2 (by decide),
   (mapper_total_outside_table (str "set/unknown") (str "1")).2.2 (by decide),
   (mapper_total_outside_table (str "bogus") (str "x")).2.2 (by decide)⟩

/-- C5 counterexample: mapping the refresh request yields the single command
`READ_SETTINGS`, not the full ordered batch `get_refresh_commands`. -/
theorem refresh_single_command_cx :
    map_command (str "set/refresh") (str "PRESS") = some READ_SETTINGS ∧
    [READ_SETTINGS] ≠ get_refresh_commands := by
  exact ⟨by decide, by decide⟩

/-- C5 (amended): for every payload, `map_command` on the refresh suffix
returns only the first read command (`READ_SETTINGS`); the full ordered batch
(settings read followed by app-data read) is only available through
`get_refresh_commands`, which the caller must dispatch in order. -/
theorem refresh_maps_first_read_only (p : Str) :
    map_command (str "set/refresh") p = some READ_SETTINGS ∧
    get_refresh_commands = [READ_SETTINGS, READ_APP_DATA] :=
  ⟨rfl, rfl⟩

/-- C6 counterexample: on the charge route the slash-delimited value is
substituted into the delay field without numeric validation — the
non-numeric value `abc` is substituted rather than rejected. -/
theorem charge_value_unvalidated_cx :
    map_command (str "charge") (str "start/abc")
      = some (str "$CMD,CHARGE,START,abc\n") ∧
    pyInt (str "abc") = none := by
  exact ⟨by decide, by decide⟩

/-- C6 (amended): on the dpm and limit routes a non-numeric slash-delimited
value yields no command (the `int` failure is caught by `map_command`, which
returns `None` instead of raising); on the charge route the value is
substituted into the delay field unvalidated. -/
theorem numeric_validation_routes (v : Str) (h : pyInt v = none) :
    map_command (str "limit") (str "user/" ++ v) = none ∧
    map_command (str "limit") (str "safe/" ++ v) = none ∧
    map_command (str "limit") (str "dpm/" ++ v) = none ∧
    map_command (str "dpm") (str "limit/" ++ v) = none ∧
    map_command (str "charge") (str "start/" ++ v)
      = some (pyFormat START_CHARGE_T (str "delay") v) := by
  refine ⟨?_, ?_, ?_, ?_, rfl⟩
  · rw [map_limit_user_red, h]; rfl
  · rw [map_limit_safe_red, h]; rfl
  · rw [map_limit_dpm_red, h]; rfl
  · rw [map_dpm_limit_red, h]; rfl

/-- Witness for C6 at the concrete non-numeric value `abc`. -/
theorem numeric_validation_routes_witness :
    map_command (str "limit") (str "user/" ++ str "abc") = none ∧
    map_command (str "limit") (str "safe/" ++ str "abc") = none ∧
    map_command (str "limit") (str "dpm/" ++ str "abc") = none ∧
    map_command (str "dpm") (str "limit/" ++ str "abc") = none ∧
    map_command (str "charge") (str "start/" ++ str "abc")
      = some (pyFormat START_CHARGE_T (str "delay") (str "abc")) :=
  numeric_validation_routes (str "abc") (by decide)

/-- C1 counterexample: processing the inbound set operation `limit ←
user/16` writes exactly the mapped WRITE command and nothing else — the
paired READ (`GET_USER_LIMIT`) is not dispatched; likewise
`Coordinator.set_limit` writes only the WRITE command. -/
theorem set_no_read_after_write_cx :
    on_mqtt_message (str "easywallbox") (str "easywallbox/limit") (str "user/16")
      = [str "$EEP,WRITE,IDX,174,16\n"] ∧
    GET_USER_LIMIT ∉
      on_mqtt_message (str "easywallbox") (str "easywallbox/limit") (str "user/16") ∧
    set_limit (str "user") (str "16") = Except.ok [str "$EEP,WRITE,IDX,174,16\n"] ∧
    GET_USER_LIMIT ∉ [str "$EEP,WRITE,IDX,174,16\n"] :=
  ⟨by decide, by decide, rfl, by decide⟩

/-- C1 (amended): an inbound bus message causes at most one BLE write, and
for a set operation (here the user-limit write) the single dispatched command
is the mapped WRITE; the paired READ command is never additionally
dispatched, so no read-after-write verification takes place. -/
theorem set_writes_single_no_read (t p v : Str) (n : Int) (h : pyInt v = some n) :
    (on_mqtt_message (str "easywallbox") t p).length ≤ 1 ∧
    on_mqtt_message (str "easywallbox") (str "easywallbox/limit") (str "user/" ++ v)
      = [pyFormat SET_USER_LIMIT_T (str "limit") (intToStr n)] ∧
    GET_USER_LIMIT ∉
      on_mqtt_message (str "easywallbox") (str "easywallbox/limit") (str "user/" ++ v) := by
  refine ⟨?_, ?_, ?_⟩
  · unfold on_mqtt_message
    split
    · simp
    · dsimp only
      split <;> simp
  · rw [on_mqtt_limit_user_red, h]
  · rw [on_mqtt_limit_user_red, h]
    intro hmem
    simp only [List.mem_singleton] at hmem
    exact get_user_ne_fmt (intToStr n) hmem

/-- Witness for C1 at the concrete set operation `user/16`. -/
theorem set_writes_single_no_read_witness :
    (on_mqtt_message (str "easywallbox") (str "easywallbox/read") (str "settings")).length ≤ 1 ∧
    on_mqtt_message (str "easywallbox") (str "easywallbox/limit") (str "user/" ++ str "16")
      = [pyFormat SET_USER_LIMIT_T (str "limit") (intToStr 16)] ∧
    GET_USER_LIMIT ∉
      on_mqtt_message (str "easywallbox") (str "easywallbox/limit") (str "user/" ++ str "16") :=
  set_writes_single_no_read (str "easywallbox/read") (str "settings") (str "16") 16 (by decide)

/-- The `/charge` routes of the two mapping implementations agree on every
payload (the branch bodies are identical). -/
lemma charge_routes_eq (p : Str) :
    coord_map_mqtt_to_ble (str "charge") p = map_command (str "charge") p := rfl

/-- The `/read` routes of the two mapping implementations agree on every
payload. -/
lemma read_routes_eq (p : Str) :
    coord_map_mqtt_to_ble (str "read") p = map_command (str "read") p := rfl

/-- The `/limit` routes of the two mapping implementations agree on every
payload: the only difference is where `str(int(val))` is evaluated, and a
failure there is caught into `None` either way. -/
lemma limit_routes_eq (p : Str) :
    coord_map_mqtt_to_ble (str "limit") p = map_command (str "limit") p := by
  show runCatch (coordLimitBranch p) = runCatch (legacyLimitBranch p)
  unfold coordLimitBranch legacyLimitBranch
  by_cases h1 : p = str "dpm"
  · simp [h1]
  by_cases h2 : p = str "safe"
  · simp [h1, h2]
  by_cases h3 : p = str "user"
  · simp [h1, h2, h3]
  by_cases h4 : '/' ∈ p
  · simp only [if_neg h1, if_neg h2, if_neg h3, if_pos h4]
    by_cases q1 : (splitFirst '/' p).1 = str "dpm"
    · cases hpy : pyInt (splitFirst '/' p).2 <;> simp [q1, hpy, runCatch]
    by_cases q2 : (splitFirst '/' p).1 = str "safe"
    · cases hpy : pyInt (splitFirst '/' p).2 <;> simp [q1, q2, hpy, runCatch]
    by_cases q3 : (splitFirst '/' p).1 = str "user"
    · cases hpy : pyInt (splitFirst '/' p).2 <;> simp [q1, q2, q3, hpy, runCatch]
    cases hpy : pyInt (splitFirst '/' p).2 <;> simp [q1, q2, q3, hpy, h4, runCatch]
  · simp [h1, h2, h3, h4, runCatch]

/-- The `/dpm` routes of the two mapping implementations agree on every
slash-free payload. -/
lemma dpm_routes_eq_noslash (p : Str) (h : '/' ∉ p) :
    coord_map_mqtt_to_ble (str "dpm") p = map_command (str "dpm") p := by
  show runCatch (coordDpmBranch p) = runCatch (legacyDpmBranch p)
  unfold coordDpmBranch legacyDpmBranch
  by_cases h1 : p = str "on"
  · simp [h1]
  by_cases h2 : p = str "off"
  · simp [h1, h2]
  by_cases h3 : p = str "limit"
  · simp [h1, h2, h3]
  by_cases h4 : p = str "status"
  · simp [h1, h2, h3, h4]
  simp [h1, h2, h3, h4, h, runCatch]

/-- C10 counterexample: the two implementations are not extensionally equal
on the legacy routes — for subtopic `dpm` with payload `limit/16` the
coordinator substitutes `160` (it multiplies by ten) while the mapper
substitutes `16`. -/
theorem legacy_routes_dpm_cx :
    coord_map_mqtt_to_ble (str "dpm") (str "limit/16")
      = some (str "$EEP,WRITE,IDX,158,160\n") ∧
    map_command (str "dpm") (str "limit/16")
      = some (str "$EEP,WRITE,IDX,158,16\n") ∧
    coord_map_mqtt_to_ble (str "dpm") (str "limit/16")
      ≠ map_command (str "dpm") (str "limit/16") := by
  exact ⟨by decide, by decide, by decide⟩

/-- C10 (amended): `Coordinator._map_mqtt_to_ble` and
`MQTTBLEMapper.map_command` agree on the `charge`, `read` and `limit` legacy
routes for every payload, and on slash-free `dpm` payloads; on a `dpm`
payload of the form `limit/<v>` with numeric `v = n` the coordinator
substitutes `n * 10` into the DPM-limit template while the mapper
substitutes `n`. -/
theorem legacy_routes_eq (p v : Str) (n : Int) (hv : pyInt v = some n) :
    coord_map_mqtt_to_ble (str "charge") p = map_command (str "charge") p ∧
    coord_map_mqtt_to_ble (str "read") p = map_command (str "read") p ∧
    coord_map_mqtt_to_ble (str "limit") p = map_command (str "limit") p ∧
    ('/' ∉ p → coord_map_mqtt_to_ble (str "dpm") p = map_command (str "dpm") p) ∧
    coord_map_mqtt_to_ble (str "dpm") (str "limit/" ++ v)
      = some (pyFormat SET_DPM_LIMIT_T (str "limit") (intToStr (n * 10))) ∧
    map_command (str "dpm") (str "limit/" ++ v)
      = some (pyFormat SET_DPM_LIMIT_T (str "limit") (intToStr n)) := by
  refine ⟨charge_routes_eq p, read_routes_eq p, limit_routes_eq p,
    fun h => dpm_routes_eq_noslash p h, ?_, ?_⟩
  · rw [coord_dpm_limit_red, hv]; rfl
  · rw [map_dpm_limit_red, hv]; rfl

/-- Witness for C10 at the concrete payload `start` and value `16`. -/
theorem legacy_routes_eq_witness :
    coord_map_mqtt_to_ble (str "charge") (str "start")
      = map_command (str "charge") (str "start") ∧
    coord_map_mqtt_to_ble (str "read") (str "start")
      = map_command (str "read") (str "start") ∧
    coord_map_mqtt_to_ble (str "limit") (str "start")
      = map_command (str "limit") (str "start") ∧
    coord_map_mqtt_to_ble (str "dpm") (str "start")
      = map_command (str "dpm") (str "start") ∧
    coord_map_mqtt_to_ble (str "dpm") (str "limit/" ++ str "16")
      = some (pyFormat SET_DPM_LIMIT_T (str "limit") (intToStr (16 * 10))) ∧
    map_command (str "dpm") (str "limit/" ++ str "16")
      = some (pyFormat SET_DPM_LIMIT_T (str "limit") (intToStr 16)) := by
  have h := legacy_routes_eq (str "start") (str "16") 16 (by decide)
  exact ⟨h.1, h.2.1, h.2.2.1, h.2.2.2.1 (by decide), h.2.2.2.2.1, h.2.2.2.2.2⟩

/-- C9: for every channel buffer state and every byte fragment whose decoding
fails, the handlers discard the entire accumulated buffer and emit nothing.
No exception escapes: the source catches `UnicodeDecodeError` inside each
handler, which is why the embedded handlers are total functions. -/
theorem decode_failure_resets (bufRx bufSt : Str) (data : List Nat)
    (h : utf8Decode data = none) :
    notification_handler_rx bufRx data = ([], []) ∧
    notification_handler_st bufSt data = [] := by
  refine ⟨?_, ?_⟩ <;> simp [notification_handler_rx, notification_handler_st, h]

/-- Witness for C9 at the invalid UTF-8 fragment `[0xFF]` with non-empty
buffers. -/
theorem decode_failure_resets_witness :
    notification_handler_rx (str "abc") [255] = ([], []) ∧
    notification_handler_st (str "xy") [255] = [] :=
  decode_failure_resets (str "abc") (str "xy") [255] (by decide)

/-- The data-channel buffer never retains a terminator after a handler call:
whenever one is present the whole buffer is flushed. -/
lemma handler_rx_newline_free (buf : Str) (d : List Nat) :
    '\n' ∉ (notification_handler_rx buf d).1 := by
  unfold notification_handler_rx
  cases utf8Decode d with
  | none => simp
  | some s =>
    by_cases h : '\n' ∈ buf ++ s
    · simp [h]
    · simp [h]

/-- C2 counterexample: the emitted sequence is not invariant under
fragmentation — the bytes of `a\nb\n` fed in one call emit one chunk while
the same bytes split at the line boundary emit two — and the emitted chunk
retains its terminator rather than stripping it. -/
theorem framer_fragmentation_cx :
    (feedAllRx [] [asciiBytes "a\nb\n"]).2 = [str "a\nb\n"] ∧
    (feedAllRx [] [asciiBytes "a\n", asciiBytes "b\n"]).2 = [str "a\n", str "b\n"] ∧
    (feedAllRx [] [asciiBytes "a\nb\n"]).2
      ≠ (feedAllRx [] [asciiBytes "a\n", asciiBytes "b\n"]).2 ∧
    str "a\n" ≠ str "a" := by decide

/-- C2 (amended): each call appends the decoded fragment to the buffer and,
when the buffer then contains a terminator anywhere, flushes the whole buffer
(terminator kept, remainder not retained) as one emitted chunk.  Hence bytes
are conserved — over any fragment sequence that decodes, the concatenation of
the emitted chunks followed by the final buffer equals the initial buffer
followed by the concatenated fragments — and a terminator never survives in
the buffer; but the emitted sequence depends on the fragment boundaries. -/
theorem framer_conservation (buf : Str) (ds : List (List Nat)) (ss : List Str)
    (hdec : ds.map utf8Decode = ss.map some)
    (hbuf : '\n' ∉ buf) :
    (feedAllRx buf ds).2.flatten ++ (feedAllRx buf ds).1 = buf ++ ss.flatten ∧
    '\n' ∉ (feedAllRx buf ds).1 := by
  induction ds generalizing buf ss with
  | nil =>
    cases ss with
    | nil => exact ⟨by simp [feedAllRx], hbuf⟩
    | cons a as => simp at hdec
  | cons d ds ih =>
    cases ss with
    | nil => simp at hdec
    | cons s ss2 =>
      simp only [List.map_cons, List.cons.injEq] at hdec
      obtain ⟨hd, hds⟩ := hdec
      by_cases hnl : '\n' ∈ buf ++ s
      · have hr1 : notification_handler_rx buf d = ([], [buf ++ s]) := by
          unfold notification_handler_rx
          rw [hd]
          simp [hnl]
        have hih := ih [] ss2 hds (by simp)
        refine ⟨?_, ?_⟩
        · simp only [feedAllRx, hr1]
          simp only [List.flatten_cons, List.append_assoc, List.nil_append] at hih ⊢
          simp [hih.1]
        · simp only [feedAllRx, hr1]
          exact hih.2
      · have hr1 : notification_handler_rx buf d = (buf ++ s, []) := by
          unfold notification_handler_rx
          rw [hd]
          simp [hnl]
        have hih := ih (buf ++ s) ss2 hds hnl
        refine ⟨?_, ?_⟩
        · simp only [feedAllRx, hr1]
          simp only [List.flatten_cons, List.append_assoc, List.nil_append] at hih ⊢
          simp [hih.1]
        · simp only [feedAllRx, hr1]
          exact hih.2

/-- Witness for C2 at a concrete two-fragment feed with an empty initial
buffer. -/
theorem framer_conservation_witness :
    (feedAllRx [] [asciiBytes "ab", asciiBytes "c\nd"]).2.flatten ++
        (feedAllRx [] [asciiBytes "ab", asciiBytes "c\nd"]).1
      = [] ++ [str "ab", str "c\nd"].flatten ∧
    '\n' ∉ (feedAllRx [] [asciiBytes "ab", asciiBytes "c\nd"]).1 :=
  framer_conservation [] [asciiBytes "ab", asciiBytes "c\nd"]
    [str "ab", str "c\nd"] (by decide) (by decide)

/-- C3 counterexample: the two fragments produce one emitted chunk that still
carries its terminator (so it is not the stripped line the claim names), and
the Coordinator does not publish the parsed value `160` on a user-limit state
topic — it forwards the raw line to the `message` passthrough topic. -/
theorem frag_scenario_cx :
    (feedAllRx [] [asciiBytes "$EEP,READ,IDX,17", asciiBytes "4,160\n"]).2
      = [str "$EEP,READ,IDX,174,160\n"] ∧
    str "$EEP,READ,IDX,174,160\n" ≠ str "$EEP,READ,IDX,174,160" ∧
    (on_ble_notify (str "$EEP,READ,IDX,174,160\n")).publish_topic
      ≠ str "easywallbox/number/user_limit/state" ∧
    (on_ble_notify (str "$EEP,READ,IDX,174,160\n")).publish_payload
      ≠ str "160" := by decide

/-- C3 (amended): feeding `"$EEP,READ,IDX,17"` then `"4,160\n"` emits exactly
one chunk, the unstripped line `"$EEP,READ,IDX,174,160\n"`, with the buffer
reset; the Coordinator then stores the stripped line as `last_data` and
republishes the raw line on the `message` passthrough topic, not a parsed
`"160"` on a user-limit state topic. -/
theorem frag_scenario :
    (feedAllRx [] [asciiBytes "$EEP,READ,IDX,17", asciiBytes "4,160\n"]).2
      = [str "$EEP,READ,IDX,174,160\n"] ∧
    (feedAllRx [] [asciiBytes "$EEP,READ,IDX,17", asciiBytes "4,160\n"]).1 = [] ∧
    on_ble_notify (str "$EEP,READ,IDX,174,160\n")
      = { last_data := str "$EEP,READ,IDX,174,160"
          publish_topic := str "easywallbox/message"
          publish_payload := str "$EEP,READ,IDX,174,160\n" } := by decide

/-- Event counts of the `BLEManager.start` trace: `n` failures then one
success perform exactly `n` five-second backoff waits, one connected signal,
and `n + 1` connect attempts. -/
lemma bleStartTrace_counts (pin : Str) (n : Nat) :
    (bleStartTrace pin n).count (BLEEvent.sleepSec 5) = n ∧
    (bleStartTrace pin n).count (BLEEvent.connChange true) = 1 ∧
    (bleStartTrace pin n).count BLEEvent.connectAttempt = n + 1 := by
  induction n with
  | zero => exact ⟨rfl, rfl, rfl⟩
  | succ k ih =>
    have hsplit : bleStartTrace pin (k + 1) = bleFailedIter ++ bleStartTrace pin k := by
      simp [bleStartTrace, List.replicate_succ, List.flatten_cons, List.append_assoc]
    rw [hsplit]
    simp only [List.count_append]
    refine ⟨?_, ?_, ?_⟩
    · rw [show bleFailedIter.count (BLEEvent.sleepSec 5) = 1 from rfl, ih.1]
      omega
    · rw [show bleFailedIter.count (BLEEvent.connChange true) = 0 from rfl, ih.2.1]
    · rw [show bleFailedIter.count BLEEvent.connectAttempt = 1 from rfl, ih.2.2]
      omega

/-- C7: across any number `n` of consecutive failed connect attempts followed
by one success, `BLEManager.start` performs exactly `n` fixed 5-second
backoff waits and emits the connected signal exactly once (after the
success), while attempting `n + 1` connects — so in particular three failures
then a success give exactly three backoffs and one connected signal, and the
loop keeps attempting with no maximum retry count. -/
theorem connect_retry_signals (pin : Str) (n : Nat) :
    ((bleStartTrace pin n).count (BLEEvent.sleepSec 5) = n ∧
     (bleStartTrace pin n).count (BLEEvent.connChange true) = 1 ∧
     (bleStartTrace pin n).count BLEEvent.connectAttempt = n + 1) ∧
    ((bleStartTrace pin 3).count (BLEEvent.sleepSec 5) = 3 ∧
     (bleStartTrace pin 3).count (BLEEvent.connChange true) = 1) :=
  ⟨bleStartTrace_counts pin n,
   (bleStartTrace_counts pin 3).1, (bleStartTrace_counts pin 3).2.1⟩

/-- C8: the dequeued reconnect sentinel is never written to the transport in
any iteration of `ble_task_loop`; when the command phase dequeues it, the
iteration performs a disconnect, leaves the loop disconnected, and the next
iteration's connection phase reconnects. -/
theorem sentinel_never_written (st : LoopState) (ok : Bool) (q : QueueTake) :
    LoopEvent.writeCmd (str "__RECONNECT__") ∉ (ble_task_iter st ok q).2 ∧
    (st.reconnectEventSet = false → (st.connected = true ∨ ok = true) →
      q = QueueTake.item (str "__RECONNECT__") →
        LoopEvent.disconnect ∈ (ble_task_iter st ok q).2 ∧
        (ble_task_iter st ok q).1.connected = false ∧
        LoopEvent.connect true ∈
          (ble_task_iter (ble_task_iter st ok q).1 true QueueTake.timeout).2) := by
  obtain ⟨c, r⟩ := st
  constructor
  · rcases q with _ | cmd
    · cases c <;> cases r <;> cases ok <;> simp [ble_task_iter, dispatchPhase]
    · by_cases hc : cmd = str "__RECONNECT__"
      · subst hc
        cases c <;> cases r <;> cases ok <;> simp [ble_task_iter, dispatchPhase]
      · cases c <;> cases r <;> cases ok <;>
          simp [ble_task_iter, dispatchPhase, hc, Ne.symm hc]
  · intro h1 h2 h3
    subst h3
    have hr : r = false := h1
    subst hr
    cases c
    · rcases h2 with h2 | h2
      · exact absurd h2 (by decide)
      · subst h2
        exact ⟨by decide, by decide, by decide⟩
    · cases ok <;> exact ⟨by decide, by decide, by decide⟩

/-- Witness for C8: a connected, non-signalled state dequeuing the sentinel. -/
theorem sentinel_never_written_witness :
    LoopEvent.writeCmd (str "__RECONNECT__")
      ∉ (ble_task_iter ⟨true, false⟩ true
          (QueueTake.item (str "__RECONNECT__"))).2 ∧
    LoopEvent.disconnect
      ∈ (ble_task_iter ⟨true, false⟩ true
          (QueueTake.item (str "__RECONNECT__"))).2 ∧
    (ble_task_iter ⟨true, false⟩ true
        (QueueTake.item (str "__RECONNECT__"))).1.connected = false ∧
    LoopEvent.connect true ∈
      (ble_task_iter
        (ble_task_iter ⟨true, false⟩ true
          (QueueTake.item (str "__RECONNECT__"))).1 true QueueTake.timeout).2 := by
  have h := sentinel_never_written ⟨true, false⟩ true
    (QueueTake.item (str "__RECONNECT__"))
  have h2 := h.2 (by decide) (Or.inl (by decide)) rfl
  exact ⟨h.1, h2.1, h2.2.1, h2.2.2⟩
